import Mathlib

/-!
Verification development for the ADK backend service.

Shallow embedding of the parts of the code base that the checked claims
concern: the RBAC role hierarchy, the rate-limiting middleware, the
infrastructure-monitor severity mapping, the evaluation framework, the
review workflow, the event JSON round trip, and the chat-session and
agent-execution HTTP handlers.  Machine-level floats of the source are
modelled as rationals; Python dicts as association lists; fallible calls
as `Except`/`Option`.
-/

namespace ADK

/-! ## Roles and RBAC (src/backend/app/middleware/auth.py) -/

/-- The `Role` enum of `app/middleware/auth.py`. -/
inductive Role where
  | user
  | admin
  | agent
  | service
deriving DecidableEq, Repr

/-- The `role_hierarchy` dict inside `UserContext.has_role`:
row = held role, value = list of roles that the held role satisfies. -/
def role_hierarchy : Role → List Role
  | .user => [.user]
  | .agent => [.user, .agent]
  | .admin => [.user, .agent, .admin]
  | .service => [.service]

/-- `UserContext.has_role`: `required_role in role_hierarchy.get(self.role, [])`. -/
def has_role (held required : Role) : Bool :=
  (role_hierarchy held).contains required

/-! ## Severity mapping of monitor_services
(src/backend/app/agents/infrastructure_monitor/agent.py, lines 66-98) -/

/-- Severity assigned to the disk and memory `usage_percent` metric records in
`monitor_services`: `"critical" if percent_used > 90 else "warning" if
percent_used > 75 else "healthy"`.  Python floats modelled as rationals. -/
def usage_severity (percent_used : ℚ) : String :=
  if percent_used > 90 then "critical"
  else if percent_used > 75 then "warning"
  else "healthy"

/-- Severity of the docker `container_count` metric record:
`"healthy" if docker_status.get("running", 0) > 0 else "warning"`. -/
def docker_severity (running : Nat) : String :=
  if running > 0 then "healthy" else "warning"

/-! ## Rate limiting middleware (src/backend/app/middleware/rate_limit.py) -/

/-- The Redis counter behind one `rate_limit:<client_id>` key: its current
value and its absolute expiry instant (seconds). -/
structure RateState where
  count : Nat
  expires_at : Nat
deriving DecidableEq, Repr

/-- Outcome of `RateLimitMiddleware.dispatch` for one request: rejected with
429 before processing, or admitted (the request proceeds to `call_next`). -/
inductive RateOutcome where
  | rejected429
  | admitted
deriving DecidableEq, Repr

/-- `redis_client.get(key)` as seen by `dispatch`: the stored count, absent
when the key was never set or its expiry has elapsed. -/
def rate_read (now : Nat) (st : Option RateState) : Option Nat :=
  match st with
  | some s => if now < s.expires_at then some s.count else none
  | none => none

/-- One pass of `RateLimitMiddleware.dispatch` for a single client: read the
current count; if present and `≥ RATE_LIMIT_PER_MINUTE`, raise 429 (leaving
the counter untouched); otherwise `INCR` the key (1 when absent) and reset
its expiry to 60 seconds from now, then process the request. -/
def rate_dispatch (limit now : Nat) (st : Option RateState) :
    RateOutcome × Option RateState :=
  match rate_read now st with
  | some c =>
      if c ≥ limit then (.rejected429, st)
      else (.admitted, some ⟨c + 1, now + 60⟩)
  | none => (.admitted, some ⟨1, now + 60⟩)

/-- State of the client's counter after `n` back-to-back requests issued at
instant `t`, starting from an absent counter. -/
def rate_after (limit t : Nat) : Nat → Option RateState
  | 0 => none
  | n + 1 => (rate_dispatch limit t (rate_after limit t n)).2

/-! ## Review workflow (src/backend/app/workflows/review_workflow.py) -/

/-- One stage-result dict appended by a review stage
(`step` / `status` / `findings` / `message`). -/
structure StageResult where
  step : String
  status : String
  findings : List String
  message : String
deriving DecidableEq, Repr

/-- The `ReviewState` TypedDict.  The three `*_result` fields are
`Annotated [...] operator.add`, so a node's returned list is appended to
the existing one rather than replacing it. -/
structure ReviewState where
  code : String
  static_analysis_result : List StageResult
  security_scan_result : List StageResult
  best_practices_result : List StageResult
  final_report : String
  errors : List String
deriving Repr

/-- `static_analysis_node`: returns a one-element `static_analysis_result`
update, merged additively into the state. -/
def static_analysis_node (s : ReviewState) : ReviewState :=
  { s with static_analysis_result := s.static_analysis_result ++
      [⟨"static_analysis", "completed", [], "Static analysis completed"⟩] }

/-- `security_scan_node`: appends one `security_scan` result. -/
def security_scan_node (s : ReviewState) : ReviewState :=
  { s with security_scan_result := s.security_scan_result ++
      [⟨"security_scan", "completed", [], "Security scan completed"⟩] }

/-- `best_practices_node`: appends one `best_practices` result. -/
def best_practices_node (s : ReviewState) : ReviewState :=
  { s with best_practices_result := s.best_practices_result ++
      [⟨"best_practices", "completed", [], "Best practices check completed"⟩] }

/-- `generate_report_node`: replaces `final_report` with the f-string report
built from the lengths of the three accumulated result lists. -/
def generate_report_node (s : ReviewState) : ReviewState :=
  { s with final_report :=
      "\nCode Review Report\n\nStatic Analysis: " ++
      toString s.static_analysis_result.length ++
      " findings\nSecurity Scan: " ++
      toString s.security_scan_result.length ++
      " findings\nBest Practices: " ++
      toString s.best_practices_result.length ++
      " findings\n\nReview completed successfully.\n" }

/-- The nodes registered on the review `StateGraph` by `add_node`. -/
def review_nodes : List (String × (ReviewState → ReviewState)) :=
  [("static_analysis", static_analysis_node),
   ("security_scan", security_scan_node),
   ("best_practices", best_practices_node),
   ("generate_report", generate_report_node)]

/-- The `add_edge` wiring of the review graph; `"END"` stands for the
LangGraph terminal marker. -/
def review_edges : List (String × String) :=
  [("static_analysis", "security_scan"),
   ("security_scan", "best_practices"),
   ("best_practices", "generate_report"),
   ("generate_report", "END")]

/-- Sequential execution of the compiled graph from a node: run the node's
function, follow its unique outgoing edge, stop at `"END"`.  Returns the
list of node names executed, in order, together with the final state.
`fuel` bounds the walk (the graph is finite and acyclic). -/
def run_graph : Nat → String → ReviewState → List String × ReviewState
  | 0, _, s => ([], s)
  | fuel + 1, node, s =>
      if node = "END" then ([], s)
      else
        match review_nodes.find? (fun kv => kv.1 = node) with
        | none => ([], s)
        | some kv =>
            let s' := kv.2 s
            match review_edges.find? (fun e => e.1 = node) with
            | none => ([node], s')
            | some e =>
                let r := run_graph fuel e.2 s'
                (node :: r.1, r.2)

/-- `review_workflow.ainvoke` on an initial state holding the input code and
empty result lists: the entry point is `static_analysis`. -/
def review_workflow (code : String) : List String × ReviewState :=
  run_graph 10 "static_analysis"
    { code := code, static_analysis_result := [], security_scan_result := [],
      best_practices_result := [], final_report := "", errors := [] }

/-! ## Evaluation framework (src/backend/tests/eval/agent_evaluator.py) -/

/-- The `TestCase` dataclass. -/
structure TestCase where
  name : String
  question : String
  expected_answer : Option String := none
  context : Option (List String) := none
  ground_truth : Option String := none
deriving Repr

/-- The `EvaluationResult` dataclass; the Python metrics dict is an
association list of metric name to float (modelled as rational). -/
structure EvaluationResult where
  agent_name : String
  test_case_name : String
  metrics : List (String × ℚ)
  passed : Bool
  error : Option String := none
deriving Repr, DecidableEq

/-- Python `key in metrics` on the metrics dict. -/
def metrics_contains (m : List (String × ℚ)) (k : String) : Bool :=
  m.any (fun kv => kv.1 = k)

/-- Python `metrics.get(key, dflt)`. -/
def metrics_get (m : List (String × ℚ)) (k : String) (dflt : ℚ) : ℚ :=
  match m.find? (fun kv => kv.1 = k) with
  | some kv => kv.2
  | none => dflt

/-- Splitting a character list on whitespace runs, accumulating the current
word; the word list Python `str.split()` denotes. -/
def split_chars : List Char → List Char → List String
  | [], acc => if acc.isEmpty then [] else [⟨acc⟩]
  | c :: cs, acc =>
      if c.isWhitespace then
        if acc.isEmpty then split_chars cs []
        else ⟨acc⟩ :: split_chars cs []
      else split_chars cs (acc ++ [c])

/-- Python `str.split()`: split on whitespace runs, dropping empty pieces. -/
def py_split (s : String) : List String := split_chars s.data []

/-- ASCII model of Python `str.lower()` on one character. -/
def ascii_lower_char (c : Char) : Char :=
  if 65 ≤ c.toNat ∧ c.toNat ≤ 90 then Char.ofNat (c.toNat + 32) else c

/-- ASCII model of Python `str.lower()`. -/
def py_lower (s : String) : String := ⟨s.data.map ascii_lower_char⟩

/-- The similarity computed in `_basic_evaluation`:
`len(set(expected.lower().split()) & set(answer.lower().split())) /
len(set(expected.lower().split()))`, and 0.0 when the expected-word set is
empty. -/
def similarity_score (expected answer : String) : ℚ :=
  let expected_words := (py_split (py_lower expected)).dedup
  let answer_words := (py_split (py_lower answer)).dedup
  let overlap := (expected_words.filter (fun w => answer_words.contains w)).length
  if expected_words.length = 0 then 0
  else (overlap : ℚ) / (expected_words.length : ℚ)

/-- `AgentEvaluator._basic_evaluation`: answer/question lengths, plus the
similarity score when an expected answer is given. -/
def basic_evaluation (question answer : String) (expected : Option String) :
    List (String × ℚ) :=
  let base : List (String × ℚ) :=
    [("answer_length", (answer.length : ℚ)),
     ("question_length", (question.length : ℚ))]
  match expected with
  | none => base
  | some e => base ++ [("similarity", similarity_score e answer)]

/-- `AgentEvaluator._check_pass_criteria`: empty metrics fail; when a
faithfulness or relevancy key is present both must be ≥ 0.7; otherwise the
similarity must be ≥ 0.5. -/
def check_pass_criteria (metrics : List (String × ℚ)) : Bool :=
  if metrics.isEmpty then false
  else if metrics_contains metrics "faithfulness" ||
      metrics_contains metrics "answer_relevancy" then
    decide ((7 : ℚ)/10 ≤ metrics_get metrics "faithfulness" 0) &&
    decide ((7 : ℚ)/10 ≤ metrics_get metrics "answer_relevancy" 0)
  else
    decide ((1 : ℚ)/2 ≤ metrics_get metrics "similarity" 0)

/-- An agent as the evaluator sees it: a name and an `execute` call that
either returns an answer or raises (modelled as `Except`, the raised
exception's message being the error string). -/
structure PyAgent where
  agent_name : String
  run : String → Except String String

/-- One iteration of the loop in `AgentEvaluator.evaluate_agent`: execute
the agent on the case's question; score via Ragas when available and the
case has a ground truth, else via the basic evaluation; an exception yields
a failed result carrying the exception's message.  `ragas_eval` stands for
the external `_evaluate_with_ragas` metric runtime. -/
def evaluate_case (ragas_available : Bool)
    (ragas_eval : String → String → String → List String → List (String × ℚ))
    (agent : PyAgent) (tc : TestCase) : EvaluationResult :=
  match agent.run tc.question with
  | .error e =>
      { agent_name := agent.agent_name, test_case_name := tc.name,
        metrics := [], passed := false, error := some e }
  | .ok response =>
      let metrics :=
        if ragas_available && tc.ground_truth.isSome then
          ragas_eval tc.question response (tc.ground_truth.getD "")
            (tc.context.getD [])
        else basic_evaluation tc.question response tc.expected_answer
      { agent_name := agent.agent_name, test_case_name := tc.name,
        metrics := metrics, passed := check_pass_criteria metrics,
        error := none }

/-- `AgentEvaluator.evaluate_agent`: every test case produces exactly one
result, appended in order; a failing case does not abort the loop. -/
def evaluate_agent (ragas_available : Bool)
    (ragas_eval : String → String → String → List String → List (String × ℚ))
    (agent : PyAgent) (test_cases : List TestCase) : List EvaluationResult :=
  test_cases.map (evaluate_case ragas_available ragas_eval agent)

/-- The evaluation report of `AgentEvaluator.generate_report`. -/
structure EvalReport where
  total_tests : Nat
  passed : Nat
  failed : Nat
  pass_rate : ℚ
  average_metrics : List (String × ℚ)
  results : List (String × Bool × List (String × ℚ) × Option String)
deriving Repr

/-- The `values` list built for one metric key inside `generate_report`:
the key's value in each result whose metrics contain the key. -/
def avg_values (results : List EvaluationResult) (k : String) : List ℚ :=
  (results.filter (fun r => metrics_contains r.metrics k)).map
    (fun r => metrics_get r.metrics k 0)

/-- The `avg_metrics[key] = sum(values) / len(values)` assignment of
`generate_report`, guarded by `if values:`. -/
def avg_entry (results : List EvaluationResult) (j : String) :
    Option (String × ℚ) :=
  let values := avg_values results j
  if values.isEmpty then none
  else some (j, values.sum / (values.length : ℚ))

/-- `AgentEvaluator.generate_report`: counts, pass rate, per-metric averages
iterated over the keys of the FIRST result's metrics dict (guarded by
`if results and results[0].metrics`), and the per-case detail list. -/
def generate_report (results : List EvaluationResult) : EvalReport :=
  let total := results.length
  let passedCount := (results.filter (fun r => r.passed)).length
  let avg_metrics : List (String × ℚ) :=
    match results with
    | [] => []
    | r0 :: _ =>
        if r0.metrics.isEmpty then []
        else (r0.metrics.map Prod.fst).filterMap (avg_entry results)
  { total_tests := total, passed := passedCount, failed := total - passedCount,
    pass_rate := if 0 < total then (passedCount : ℚ) / (total : ℚ) else 0,
    average_metrics := avg_metrics,
    results := results.map (fun r =>
      (r.test_case_name, r.passed, r.metrics, r.error)) }

/-- First result of the C5 counterexample list: reports only metric `"a"`. -/
def c5_r0 : EvaluationResult :=
  { agent_name := "infrastructure_monitor", test_case_name := "t1",
    metrics := [("a", 1)], passed := true, error := none }

/-- Second result of the C5 counterexample list: reports only metric `"b"`. -/
def c5_r1 : EvaluationResult :=
  { agent_name := "infrastructure_monitor", test_case_name := "t2",
    metrics := [("b", 2)], passed := true, error := none }

/-- Concrete result list for the C5 counterexample: metric key `"b"` is
reported by the second result but not by the first. -/
def c5_results : List EvaluationResult := [c5_r0, c5_r1]

/-- Stand-in Ragas runtime for concrete evaluation runs (never reached when
cases carry no ground truth). -/
def c7_reval : String → String → String → List String → List (String × ℚ) :=
  fun _ _ _ _ => []

/-- Concrete agent for the C7 witness: raises on question `"qe"`, otherwise
answers `"a c"`. -/
def c7_agent : PyAgent :=
  { agent_name := "infrastructure_monitor",
    run := fun q => if q = "qe" then .error "boom" else .ok "a c" }

/-- Witness case whose answer shares half of the expected words. -/
def c7_pass_case : TestCase :=
  { name := "pass", question := "q1", expected_answer := some "a b" }

/-- Witness case whose answer shares none of the expected words. -/
def c7_fail_case : TestCase :=
  { name := "fail", question := "q2", expected_answer := some "z" }

/-- Witness case whose execution raises. -/
def c7_err_case : TestCase := { name := "err", question := "qe" }

/-! ## HTTP handler results -/

/-- Outcome of a route handler: a successful JSON body, a raised
`HTTPException` with its status code and detail, or an uncaught Python
exception (rendered as 500 by the global error handler). -/
inductive ApiResult (α : Type) where
  | ok : α → ApiResult α
  | httpError : Nat → String → ApiResult α
  | pythonError : String → ApiResult α
deriving DecidableEq, Repr

/-- The authenticated `UserContext` resolved by `require_auth`
(src/backend/app/middleware/auth.py). -/
structure UserContext where
  user_id : String
  email : String
  role : Role
  tenant_id : Option String := none
deriving DecidableEq, Repr

/-! ## Session service (src/backend/app/services/session_service.py) and
`GET /api/chat/sessions/(session_id)` (src/backend/app/api/routes/chat.py) -/

/-- One `adk_sessions` row, restricted to the fields the handler reads. -/
structure SessionRecord where
  session_id : String
  user_id : String
deriving DecidableEq, Repr

/-- One `session_history` row. -/
structure HistoryRow where
  session_id : String
  user_message : String
  agent_response : String
  agent_name : String
deriving DecidableEq, Repr

/-- `SessionService.get_session`: the store query (select rows whose
`session_id` matches) either fails or returns rows; the service returns
`rows[0]` when nonempty, and logs and returns absent on an empty result or
any exception — it never raises. -/
def get_session (store_response : Except String (List SessionRecord)) :
    Option SessionRecord :=
  match store_response with
  | .error _ => none
  | .ok rows => rows.head?

/-- `SessionService.get_session_history`: the store query (rows whose
`session_id` matches, newest first, limit 50) either fails or returns rows;
the service returns the rows, or the empty list on any exception. -/
def get_session_history (store_response : Except String (List HistoryRow)) :
    List HistoryRow :=
  match store_response with
  | .error _ => []
  | .ok rows => rows

/-- The body returned by `get_session_history` in `chat.py`. -/
structure SessionHistoryResponse where
  session_id : String
  messages : List HistoryRow
deriving DecidableEq, Repr

/-- The `GET /api/chat/sessions/(session_id)` handler
(`get_session_history`, chat.py lines 160-178), past `require_auth`: look
the session up; when a session exists and its `user_id` differs from the
caller's, raise 403; otherwise return the session's history rows. -/
def get_session_history_endpoint
    (session_response : Except String (List SessionRecord))
    (history_response : Except String (List HistoryRow))
    (session_id : String) (user : UserContext) :
    ApiResult SessionHistoryResponse :=
  match get_session session_response with
  | some s =>
      if s.user_id ≠ user.user_id then
        .httpError 403 "Access denied to this session"
      else .ok ⟨session_id, get_session_history history_response⟩
  | none => .ok ⟨session_id, get_session_history history_response⟩

/-! ## Agent execute endpoint (src/backend/app/api/routes/agents.py) -/

/-- Keyword-capable parameter names of `BaseADKAgent.execute` after the
positional `user_message` (src/backend/app/agents/base_agent.py, lines
64-66): only `session_id`.  There is no `user_id` parameter and no
`**kwargs`, and `InfrastructureMonitorAgent` does not override `execute`. -/
def execute_keyword_params : List String := ["session_id"]

/-- Python call binding for `agent.execute(user_message, **kwargs)`: when a
keyword name is not among `execute`'s parameters the call raises
`TypeError` (unexpected keyword argument); otherwise the body runs.  `run`
stands for the agent body (message and session id to response text). -/
def call_agent_execute (run : String → Option String → String)
    (user_message : String) (kwargs : List (String × Option String)) :
    Except String String :=
  if kwargs.all (fun kv => execute_keyword_params.contains kv.1) then
    .ok (run user_message
      (match kwargs.find? (fun kv => kv.1 = "session_id") with
       | some kv => kv.2
       | none => none))
  else .error "TypeError: execute() got an unexpected keyword argument"

/-- The request body of POST `/api/agents/(agent_name)/execute`:
`message.get("message", "")` and `message.get("session_id")`. -/
structure ExecuteBody where
  message : Option String := none
  session_id : Option String := none
deriving DecidableEq, Repr

/-- The success body `agent` / `response` / `status` of the handler. -/
structure ExecuteResponse where
  agent : String
  response : String
  status : String
deriving DecidableEq, Repr

/-- The `execute_agent` handler (agents.py lines 48-71), past
`require_auth`: for `infrastructure_monitor` it calls
`agent.execute(user_message, session_id=session_id, user_id=user.user_id)`
and wraps the result as `agent`/`response`/`"completed"`; any other name
raises 404. -/
def execute_agent (run : String → Option String → String)
    (agent_name : String) (body : ExecuteBody) (user : UserContext) :
    ApiResult ExecuteResponse :=
  let user_message := body.message.getD ""
  let session_id := body.session_id
  if agent_name = "infrastructure_monitor" then
    match call_agent_execute run user_message
        [("session_id", session_id), ("user_id", some user.user_id)] with
    | .ok response => .ok ⟨agent_name, response, "completed"⟩
    | .error e => .pythonError e
  else .httpError 404 ("Agent " ++ agent_name ++ " not found")

/-! ## Event JSON round trip (src/backend/app/event_bus/schema.py)

`to_json` is `json.dumps(self.model_dump(mode="json"))` and `from_json` is
`cls(**json.loads(json_str))`.  The `json.dumps`/`json.loads` string step is
the external json library, inverse on this JSON-value representation, so the
round trip is modelled on JSON values; what the repository's code
contributes — the field set of the dump, the isoformat encoding of the
timestamp via the model's `json_encoders`, and the constructor receiving
every field (so the `event_id`/`timestamp` default factories never run) —
is modelled explicitly. -/

/-- JSON values. -/
inductive JsonValue where
  | null
  | bool (b : Bool)
  | num (q : ℚ)
  | str (s : String)
  | arr (elems : List JsonValue)
  | obj (fields : List (String × JsonValue))

/-- A `datetime.datetime` value as produced by `datetime.utcnow()`:
naive, microsecond precision. -/
structure PyDateTime where
  year : Nat
  month : Nat
  day : Nat
  hour : Nat
  minute : Nat
  second : Nat
  microsecond : Nat
deriving DecidableEq, Repr

/-- Range invariant of a real `datetime` value (`MAXYEAR` is 9999). -/
def PyDateTime.valid (d : PyDateTime) : Prop :=
  d.year ≤ 9999 ∧ 1 ≤ d.month ∧ d.month ≤ 12 ∧ 1 ≤ d.day ∧ d.day ≤ 31 ∧
  d.hour ≤ 23 ∧ d.minute ≤ 59 ∧ d.second ≤ 59 ∧ d.microsecond ≤ 999999

instance (d : PyDateTime) : Decidable d.valid := by
  unfold PyDateTime.valid; infer_instance

/-- The decimal digit character for `n < 10`. -/
def digit_char (n : Nat) : Char := Char.ofNat (48 + n)

/-- Two-digit zero-padded rendering (`%02d`) for `n < 100`. -/
def digits2 (n : Nat) : List Char := [digit_char (n / 10), digit_char (n % 10)]

/-- Four-digit zero-padded rendering (`%04d`) for `n < 10000`. -/
def digits4 (n : Nat) : List Char :=
  [digit_char (n / 1000), digit_char (n / 100 % 10), digit_char (n / 10 % 10),
   digit_char (n % 10)]

/-- Six-digit zero-padded rendering (`%06d`) for `n < 1000000`. -/
def digits6 (n : Nat) : List Char :=
  [digit_char (n / 100000), digit_char (n / 10000 % 10),
   digit_char (n / 1000 % 10), digit_char (n / 100 % 10),
   digit_char (n / 10 % 10), digit_char (n % 10)]

/-- `datetime.isoformat()` on a naive datetime: `YYYY-MM-DDTHH:MM:SS`, with
a `.ffffff` fraction exactly when the microsecond is nonzero (Python omits
the fraction at microsecond 0). -/
def isoformat (d : PyDateTime) : String :=
  ⟨digits4 d.year ++ '-' :: digits2 d.month ++ '-' :: digits2 d.day ++
    'T' :: digits2 d.hour ++ ':' :: digits2 d.minute ++ ':' ::
    digits2 d.second ++
    (if d.microsecond = 0 then [] else '.' :: digits6 d.microsecond)⟩

/-- Value of a decimal digit character. -/
def digit_val (c : Char) : Option Nat :=
  if c.isDigit then some (c.toNat - 48) else none

/-- Read a two-digit decimal number. -/
def read2 (a b : Char) : Option Nat := do
  let x ← digit_val a
  let y ← digit_val b
  pure (10 * x + y)

/-- Read a four-digit decimal number. -/
def read4 (a b c d : Char) : Option Nat := do
  let x ← read2 a b
  let y ← read2 c d
  pure (100 * x + y)

/-- Read a six-digit decimal number. -/
def read6 (a b c d e f : Char) : Option Nat := do
  let x ← read2 a b
  let y ← read2 c d
  let z ← read2 e f
  pure (10000 * x + 100 * y + z)

/-- Pydantic's datetime validation applied to the strings
`datetime.isoformat` produces: `YYYY-MM-DDTHH:MM:SS` with an optional
six-digit fraction. -/
def parse_iso_chars (cs : List Char) : Option PyDateTime :=
  match cs with
  | y1 :: y2 :: y3 :: y4 :: c1 :: m1 :: m2 :: c2 :: d1 :: d2 :: t ::
      h1 :: h2 :: c3 :: n1 :: n2 :: c4 :: s1 :: s2 :: rest => do
      guard (c1 = '-' ∧ c2 = '-' ∧ t = 'T' ∧ c3 = ':' ∧ c4 = ':')
      let y ← read4 y1 y2 y3 y4
      let mo ← read2 m1 m2
      let dd ← read2 d1 d2
      let hh ← read2 h1 h2
      let mi ← read2 n1 n2
      let ss ← read2 s1 s2
      match rest with
      | [] => pure ⟨y, mo, dd, hh, mi, ss, 0⟩
      | dot :: u1 :: u2 :: u3 :: u4 :: u5 :: u6 :: [] => do
          guard (dot = '.')
          let us ← read6 u1 u2 u3 u4 u5 u6
          pure ⟨y, mo, dd, hh, mi, ss, us⟩
      | _ => none
  | _ => none

/-- Parse an isoformat timestamp string. -/
def parse_iso (s : String) : Option PyDateTime := parse_iso_chars s.data

/-- The `Event` model: `event_id` and `timestamp` carry defaults
(`uuid4()` / `utcnow()`) applied only when the field is absent at
construction; the payload dict is a JSON object. -/
structure Event where
  event_id : String
  session_id : String
  timestamp : PyDateTime
  type : String
  payload : List (String × JsonValue)

/-- `fields[k]` on a JSON object. -/
def json_lookup (fields : List (String × JsonValue)) (k : String) :
    Option JsonValue :=
  (fields.find? (fun kv => kv.1 = k)).map (fun kv => kv.2)

/-- Pydantic string validation. -/
def as_str : JsonValue → Option String
  | .str s => some s
  | _ => none

/-- Pydantic `Dict[str, Any]` validation. -/
def as_obj : JsonValue → Option (List (String × JsonValue))
  | .obj f => some f
  | _ => none

/-- `Event.to_json`: `model_dump(mode="json")` emits all five fields, the
timestamp rendered by `datetime.isoformat` per the model's
`json_encoders`. -/
def to_json (e : Event) : JsonValue :=
  .obj [("event_id", .str e.event_id), ("session_id", .str e.session_id),
        ("timestamp", .str (isoformat e.timestamp)), ("type", .str e.type),
        ("payload", .obj e.payload)]

/-- `Event.from_json`: `cls(**data)` validates every provided field; since
all five fields are present in the dump, no default factory runs. -/
def from_json (j : JsonValue) : Option Event := do
  let fields ← as_obj j
  let eid ← (json_lookup fields "event_id").bind as_str
  let sid ← (json_lookup fields "session_id").bind as_str
  let ts_str ← (json_lookup fields "timestamp").bind as_str
  let ts ← parse_iso ts_str
  let ty ← (json_lookup fields "type").bind as_str
  let payload ← (json_lookup fields "payload").bind as_obj
  pure { event_id := eid, session_id := sid, timestamp := ts, type := ty,
         payload := payload }

end ADK

/-! ## Theorems -/

namespace ADK

/-- C2: the role-satisfaction relation `has_role` is reflexive; an `admin`
holder satisfies `user`, `agent` and `admin`; an `agent` holder satisfies
`user` and `agent` but not `admin`; a `user` holder satisfies only `user`;
a `service` holder satisfies only `service` — in particular
`has_role service user` and `has_role admin service` are false. -/
theorem has_role_hierarchy_spec :
    (∀ r : Role, has_role r r = true) ∧
    (has_role .admin .user = true ∧ has_role .admin .agent = true ∧
      has_role .admin .admin = true) ∧
    (has_role .agent .user = true ∧ has_role .agent .agent = true ∧
      has_role .agent .admin = false) ∧
    (∀ r : Role, has_role .user r = true ↔ r = .user) ∧
    (∀ r : Role, has_role .service r = true ↔ r = .service) ∧
    has_role .service .user = false ∧
    has_role .admin .service = false := by
  refine ⟨fun r => ?_, by decide, by decide, fun r => ?_, fun r => ?_, by decide, by decide⟩
  · cases r <;> decide
  · cases r <;> simp [has_role, role_hierarchy]
  · cases r <;> simp [has_role, role_hierarchy]

/-- C4: `usage_severity` maps `percent_used > 90` to `"critical"`,
`75 < percent_used ≤ 90` to `"warning"` and `percent_used ≤ 75` to
`"healthy"` (concretely: 91 critical, 80 warning, 50 healthy, exactly 90
warning, exactly 75 healthy, 75.1 warning); `docker_severity` is
`"healthy"` exactly when the running-container count is positive. -/
theorem usage_severity_thresholds :
    (∀ p : ℚ, 90 < p → usage_severity p = "critical") ∧
    (∀ p : ℚ, 75 < p → p ≤ 90 → usage_severity p = "warning") ∧
    (∀ p : ℚ, p ≤ 75 → usage_severity p = "healthy") ∧
    usage_severity 91 = "critical" ∧
    usage_severity 80 = "warning" ∧
    usage_severity 50 = "healthy" ∧
    usage_severity 90 = "warning" ∧
    usage_severity 75 = "healthy" ∧
    usage_severity (751 / 10) = "warning" ∧
    (∀ n : Nat, 0 < n → docker_severity n = "healthy") ∧
    docker_severity 0 = "warning" := by
  refine ⟨fun p hp => ?_, fun p hp hp' => ?_, fun p hp => ?_,
    by norm_num [usage_severity], by norm_num [usage_severity],
    by norm_num [usage_severity], by norm_num [usage_severity],
    by norm_num [usage_severity], by norm_num [usage_severity],
    fun n hn => ?_, by simp [docker_severity]⟩
  · simp [usage_severity, hp]
  · rw [usage_severity, if_neg (by linarith), if_pos hp]
  · rw [usage_severity, if_neg (by linarith), if_neg (by linarith)]
  · simp [docker_severity, hn]

/-- Witness for C4: instantiates the threshold theorem at 91, 80 and 50,
and the docker clause at a single running container. -/
theorem usage_severity_thresholds_witness :
    usage_severity 91 = "critical" ∧ usage_severity 80 = "warning" ∧
    usage_severity 50 = "healthy" ∧ docker_severity 1 = "healthy" :=
  ⟨usage_severity_thresholds.1 91 (by norm_num),
   usage_severity_thresholds.2.1 80 (by norm_num) (by norm_num),
   usage_severity_thresholds.2.2.1 50 (by norm_num),
   usage_severity_thresholds.2.2.2.2.2.2.2.2.2.1 1 (by norm_num)⟩

/-- The counter after `k ≤ 60` requests at instant `t` from an absent start:
absent for `k = 0`, otherwise value `k` with expiry `t + 60`. -/
lemma rate_after_spec (t : Nat) :
    ∀ k, k ≤ 60 → rate_after 60 t k =
      if k = 0 then none else some ⟨k, t + 60⟩ := by
  intro k
  induction k with
  | zero => intro _; rfl
  | succ k ih =>
      intro hk
      have hk' : k ≤ 60 := Nat.le_of_succ_le hk
      rw [rate_after, ih hk']
      by_cases h0 : k = 0
      · subst h0
        simp [rate_dispatch, rate_read]
      · have hlt : t < t + 60 := by omega
        have hklt : ¬ k ≥ 60 := by omega
        simp [rate_dispatch, rate_read, h0, hlt, hklt]

/-- C3: for a single client with configured limit 60 and an absent counter at
instant `t`: each of the first 60 requests is admitted and reads stored
counts 0..59 before its check; the 61st reads count 60 and is rejected with
429 before processing; a request issued once the 60-second expiry has
elapsed (at `t + 60`) is admitted again. -/
theorem rate_limit_window (t : Nat) :
    (∀ i, 1 ≤ i → i ≤ 60 →
        (rate_read t (rate_after 60 t (i - 1))).getD 0 = i - 1 ∧
        (rate_dispatch 60 t (rate_after 60 t (i - 1))).1 = .admitted) ∧
    ((rate_read t (rate_after 60 t 60)).getD 0 = 60 ∧
      (rate_dispatch 60 t (rate_after 60 t 60)).1 = .rejected429) ∧
    (rate_dispatch 60 (t + 60) (rate_after 60 t 61)).1 = .admitted := by
  have h60 : rate_after 60 t 60 = some ⟨60, t + 60⟩ := by
    rw [rate_after_spec t 60 (by omega)]; simp
  have hlt : t < t + 60 := by omega
  refine ⟨fun i h1 h60' => ?_, ?_, ?_⟩
  · rw [rate_after_spec t (i - 1) (by omega)]
    by_cases h0 : i - 1 = 0
    · rw [h0]
      simp [rate_dispatch, rate_read]
    · have hklt : ¬ (i - 1) ≥ 60 := by omega
      simp [rate_dispatch, rate_read, h0, hlt, hklt]
  · rw [h60]
    simp [rate_dispatch, rate_read, hlt]
  · have h61 : rate_after 60 t 61 = some ⟨60, t + 60⟩ := by
      rw [rate_after, h60]
      simp [rate_dispatch, rate_read, hlt]
    rw [h61]
    simp [rate_dispatch, rate_read]

/-- Witness for C3: the 60th request at instant 0 reads stored count 59 and
is admitted. -/
theorem rate_limit_window_witness :
    (rate_read 0 (rate_after 60 0 59)).getD 0 = 59 ∧
    (rate_dispatch 60 0 (rate_after 60 0 59)).1 = .admitted :=
  (rate_limit_window 0).1 60 (by norm_num) (by norm_num)

/-- C6: on every input code string the Review Workflow executes its stages
in the fixed order static_analysis → security_scan → best_practices →
generate_report; each of the three result lists accumulates exactly one
entry, and the final report states the three finding counts taken from
those lists followed by the fixed completion sentence. -/
theorem review_workflow_order_and_report (code : String) :
    (review_workflow code).1 =
      ["static_analysis", "security_scan", "best_practices",
        "generate_report"] ∧
    (review_workflow code).2.static_analysis_result.length = 1 ∧
    (review_workflow code).2.security_scan_result.length = 1 ∧
    (review_workflow code).2.best_practices_result.length = 1 ∧
    (review_workflow code).2.final_report =
      "\nCode Review Report\n\nStatic Analysis: 1 findings\nSecurity Scan: 1 findings\nBest Practices: 1 findings\n\nReview completed successfully.\n" :=
  ⟨rfl, rfl, rfl, rfl,
    Eq.trans
      (by rfl : (review_workflow code).2.final_report =
        "\nCode Review Report\n\nStatic Analysis: " ++ toString (1 : Nat) ++
        " findings\nSecurity Scan: " ++ toString (1 : Nat) ++
        " findings\nBest Practices: " ++ toString (1 : Nat) ++
        " findings\n\nReview completed successfully.\n")
      (by rfl)⟩

/-- `metrics_contains` agrees with membership among the dict's keys. -/
lemma metrics_contains_iff (m : List (String × ℚ)) (k : String) :
    metrics_contains m k = true ↔ k ∈ m.map Prod.fst := by
  simp [metrics_contains, List.any_eq_true, List.mem_map]

/-- A result that reports the key makes the `values` list nonempty. -/
lemma avg_values_ne_empty {results : List EvaluationResult}
    {r : EvaluationResult} {k : String} (hr : r ∈ results)
    (hk : metrics_contains r.metrics k = true) :
    (avg_values results k).isEmpty = false := by
  have hfil : r ∈ results.filter (fun r => metrics_contains r.metrics k) :=
    List.mem_filter.mpr ⟨hr, hk⟩
  have hmem : metrics_get r.metrics k 0 ∈ avg_values results k :=
    List.mem_map_of_mem _ hfil
  cases h : (avg_values results k).isEmpty
  · rfl
  · rw [List.isEmpty_iff] at h
    exact absurd (h ▸ hmem) (List.not_mem_nil _)

/-- Looking up a reported key among the accumulated average entries yields
the mean of that key's values. -/
lemma find_avg_entry (results : List EvaluationResult) (k : String)
    (hne : (avg_values results k).isEmpty = false) :
    ∀ keys : List String, k ∈ keys →
      (keys.filterMap (avg_entry results)).find? (fun kv => kv.1 = k) =
        some (k, (avg_values results k).sum /
          ((avg_values results k).length : ℚ)) := by
  intro keys
  induction keys with
  | nil => intro h; cases h
  | cons j keys ih =>
      intro hmem
      by_cases hjk : j = k
      · subst hjk
        have hE : avg_entry results j = some (j, (avg_values results j).sum /
            ((avg_values results j).length : ℚ)) := by
          simp [avg_entry, hne]
        rw [List.filterMap_cons, hE, List.find?_cons_of_pos]
        simp
      · have hmem' : k ∈ keys := by
          cases List.mem_cons.mp hmem with
          | inl h => exact absurd h.symm hjk
          | inr h => exact h
        cases hE : avg_entry results j with
        | none => rw [List.filterMap_cons, hE]; exact ih hmem'
        | some x =>
            have hx1 : x.1 = j := by
              revert hE
              simp only [avg_entry]
              split
              · intro h; cases h
              · intro h; cases h; rfl
            rw [List.filterMap_cons, hE, List.find?_cons_of_neg]
            · exact ih hmem'
            · simp [hx1, hjk]

/-- C5 counterexample: in `c5_results` the key `"b"` appears in a result's
metrics, yet the report's `average_metrics` has no entry for `"b"`, because
`generate_report` only iterates over the first result's metric keys. -/
theorem generate_report_missing_key_counterexample :
    (c5_results.any fun r => metrics_contains r.metrics "b") = true ∧
    (generate_report c5_results).average_metrics.find?
      (fun kv => kv.1 = "b") = none := by
  constructor
  · rfl
  · rfl

/-- C5 amended: for a nonempty result list, `average_metrics` holds, for
every metric key of the FIRST result's metrics map, the arithmetic mean of
that key's values over exactly the results whose metrics contain the key —
and it holds entries for no other keys. -/
theorem generate_report_average_metrics (r0 : EvaluationResult)
    (rest : List EvaluationResult) :
    (∀ k, metrics_contains r0.metrics k = true →
      (generate_report (r0 :: rest)).average_metrics.find?
          (fun kv => kv.1 = k) =
        some (k, (avg_values (r0 :: rest) k).sum /
          ((avg_values (r0 :: rest) k).length : ℚ))) ∧
    (∀ kv ∈ (generate_report (r0 :: rest)).average_metrics,
      metrics_contains r0.metrics kv.1 = true) := by
  constructor
  · intro k hk
    have hkeys : k ∈ r0.metrics.map Prod.fst := (metrics_contains_iff _ _).mp hk
    have hne : (avg_values (r0 :: rest) k).isEmpty = false :=
      avg_values_ne_empty (List.mem_cons_self r0 rest) hk
    have hr0ne : r0.metrics.isEmpty = false := by
      cases hm : r0.metrics.isEmpty
      · rfl
      · rw [List.isEmpty_iff] at hm
        rw [hm] at hkeys
        cases hkeys
    show (if r0.metrics.isEmpty then ([] : List (String × ℚ))
        else (r0.metrics.map Prod.fst).filterMap
          (avg_entry (r0 :: rest))).find? (fun kv => kv.1 = k) = _
    rw [hr0ne]
    simp only [Bool.false_eq_true, if_false]
    exact find_avg_entry (r0 :: rest) k hne _ hkeys
  · intro kv hkv
    have : kv ∈ (if r0.metrics.isEmpty then ([] : List (String × ℚ))
        else (r0.metrics.map Prod.fst).filterMap (avg_entry (r0 :: rest))) :=
      hkv
    by_cases hm : r0.metrics.isEmpty
    · rw [hm] at this; simp at this
    · rw [if_neg hm] at this
      obtain ⟨j, hj, hFj⟩ := List.mem_filterMap.mp this
      have hkvj : kv.1 = j := by
        revert hFj
        simp only [avg_entry]
        split
        · intro h; cases h
        · intro h; cases h; rfl
      rw [hkvj]
      exact (metrics_contains_iff _ _).mpr hj

/-- Witness for the amended C5: concrete one-result list whose single key
`"a"` is looked up in the report. -/
theorem generate_report_average_metrics_witness :
    metrics_contains c5_r0.metrics "a" = true ∧
    (generate_report [c5_r0]).average_metrics.find? (fun kv => kv.1 = "a") =
      some ("a", (avg_values [c5_r0] "a").sum /
        ((avg_values [c5_r0] "a").length : ℚ)) :=
  ⟨by rfl, (generate_report_average_metrics c5_r0 []).1 "a" (by rfl)⟩

/-- The pass check on the basic-evaluation metric dict reduces to the
similarity threshold (the dict never carries Ragas keys). -/
lemma check_pass_basic (a q s : ℚ) :
    check_pass_criteria
      [("answer_length", a), ("question_length", q), ("similarity", s)] =
    decide ((1 : ℚ)/2 ≤ s) := by rfl

/-- C7: for a basic-evaluation case (no ground truth) with an expected
answer, similarity ≥ 1/2 marks the case passed and similarity 0 marks it
failed; a case whose execution raises yields a failed result carrying the
exception's message; and every case produces a result (the run is not
aborted). -/
theorem evaluate_agent_basic_pass_fail (rav : Bool)
    (reval : String → String → String → List String → List (String × ℚ))
    (agent : PyAgent) :
    (∀ tc e response, tc.ground_truth = none → tc.expected_answer = some e →
      agent.run tc.question = .ok response →
      ((1 : ℚ)/2 ≤ similarity_score e response →
        (evaluate_case rav reval agent tc).passed = true) ∧
      (similarity_score e response = 0 →
        (evaluate_case rav reval agent tc).passed = false)) ∧
    (∀ tc msg, agent.run tc.question = .error msg →
      (evaluate_case rav reval agent tc).passed = false ∧
      (evaluate_case rav reval agent tc).error = some msg) ∧
    (∀ cases, (evaluate_agent rav reval agent cases).length = cases.length) := by
  refine ⟨fun tc e response hgt hexp hrun => ?_, fun tc msg hrun => ?_,
    fun cases => ?_⟩
  · have hp : (evaluate_case rav reval agent tc).passed =
        decide ((1 : ℚ)/2 ≤ similarity_score e response) := by
      simp [evaluate_case, hrun, hgt, hexp, basic_evaluation, check_pass_basic]
    constructor
    · intro h; rw [hp]; exact decide_eq_true h
    · intro h; rw [hp, h]; norm_num
  · constructor <;> simp [evaluate_case, hrun]
  · simp [evaluate_agent]

/-- Witness for C7: a passing, a failing and a raising case, evaluated
concretely. -/
theorem evaluate_agent_basic_pass_fail_witness :
    (evaluate_case false c7_reval c7_agent c7_pass_case).passed = true ∧
    (evaluate_case false c7_reval c7_agent c7_fail_case).passed = false ∧
    (evaluate_case false c7_reval c7_agent c7_err_case).passed = false ∧
    (evaluate_case false c7_reval c7_agent c7_err_case).error = some "boom" ∧
    (evaluate_agent false c7_reval c7_agent
      [c7_pass_case, c7_fail_case, c7_err_case]).length = 3 := by
  have hsim1 : similarity_score "a b" "a c" = 1/2 := by
    simp only [similarity_score,
      show (py_split (py_lower "a b")).dedup = ["a", "b"] from by decide,
      show (py_split (py_lower "a c")).dedup = ["a", "c"] from by decide,
      show (["a", "b"].filter
        (fun w => (["a", "c"] : List String).contains w)).length = 1 from
        by decide,
      show (["a", "b"] : List String).length = 2 from rfl]
    norm_num
  have hsim0 : similarity_score "z" "a c" = 0 := by
    simp only [similarity_score,
      show (py_split (py_lower "z")).dedup = ["z"] from by decide,
      show (py_split (py_lower "a c")).dedup = ["a", "c"] from by decide,
      show (["z"].filter
        (fun w => (["a", "c"] : List String).contains w)).length = 0 from
        by decide,
      show (["z"] : List String).length = 1 from rfl]
    norm_num
  have h := evaluate_agent_basic_pass_fail false c7_reval c7_agent
  refine ⟨(h.1 c7_pass_case "a b" "a c" rfl rfl (by rfl)).1
      (by rw [hsim1]),
    (h.1 c7_fail_case "z" "a c" rfl rfl (by rfl)).2 hsim0,
    (h.2.1 c7_err_case "boom" (by rfl)).1,
    (h.2.1 c7_err_case "boom" (by rfl)).2,
    h.2.2 [c7_pass_case, c7_fail_case, c7_err_case]⟩

/-- C9: when the stored session exists with owner `A`, a caller resolved to
`B ≠ A` gets 403 (a result carrying no history), while the owner gets the
session's history rows. -/
theorem session_history_ownership (session_id : String)
    (s : SessionRecord) (rest : List SessionRecord)
    (history_response : Except String (List HistoryRow)) :
    (∀ caller : UserContext, s.user_id ≠ caller.user_id →
      get_session_history_endpoint (.ok (s :: rest)) history_response
        session_id caller = .httpError 403 "Access denied to this session") ∧
    (∀ owner : UserContext, s.user_id = owner.user_id →
      get_session_history_endpoint (.ok (s :: rest)) history_response
        session_id owner =
        .ok ⟨session_id, get_session_history history_response⟩) := by
  constructor
  · intro caller hne
    simp [get_session_history_endpoint, get_session, hne]
  · intro owner heq
    simp [get_session_history_endpoint, get_session, heq]

/-- Witness for C9: a session owned by `"A"`, queried by `"B"` and by the
owner. -/
theorem session_history_ownership_witness :
    get_session_history_endpoint (.ok [⟨"s1", "A"⟩]) (.ok []) "s1"
        ⟨"B", "b@x", .user, none⟩ =
      .httpError 403 "Access denied to this session" ∧
    get_session_history_endpoint (.ok [⟨"s1", "A"⟩]) (.ok []) "s1"
        ⟨"A", "a@x", .user, none⟩ =
      .ok ⟨"s1", get_session_history (.ok [])⟩ :=
  ⟨(session_history_ownership "s1" ⟨"s1", "A"⟩ [] (.ok [])).1
      ⟨"B", "b@x", .user, none⟩ (by decide),
   (session_history_ownership "s1" ⟨"s1", "A"⟩ [] (.ok [])).2
      ⟨"A", "a@x", .user, none⟩ rfl⟩

/-- C10: when no session row exists for the id, the ownership check is
skipped for every authenticated caller — no 403/404 — and the endpoint
returns the id with the history rows, the empty list when the history
lookup fails. -/
theorem session_history_absent_session (session_id : String)
    (caller : UserContext) :
    (∀ history_response,
      get_session_history_endpoint (.ok []) history_response session_id
        caller =
        .ok ⟨session_id, get_session_history history_response⟩) ∧
    (∀ err history_response,
      get_session_history_endpoint (.error err) history_response session_id
        caller =
        .ok ⟨session_id, get_session_history history_response⟩) ∧
    (∀ err, get_session_history (.error err) = ([] : List HistoryRow)) ∧
    (∀ rows, get_session_history (.ok rows) = rows) := by
  refine ⟨fun hr => ?_, fun e hr => ?_, fun e => rfl, fun rows => rfl⟩
  · simp [get_session_history_endpoint, get_session]
  · simp [get_session_history_endpoint, get_session]

/-- C1: the code cannot produce the documented success body.  For
`infrastructure_monitor` the handler's call
`agent.execute(..., user_id=...)` does not bind — `execute` has no
`user_id` parameter — so it raises `TypeError` instead of returning
`agent`/`response`/`"completed"`; every other agent name raises 404 as
claimed. -/
theorem execute_agent_user_id_type_error
    (run : String → Option String → String) (body : ExecuteBody)
    (user : UserContext) :
    execute_agent run "infrastructure_monitor" body user =
      .pythonError "TypeError: execute() got an unexpected keyword argument" ∧
    (∀ name, name ≠ "infrastructure_monitor" →
      execute_agent run name body user =
        .httpError 404 ("Agent " ++ name ++ " not found")) := by
  constructor
  · rfl
  · intro name hname
    simp [execute_agent, hname]

/-- Witness for C1: the handler evaluated at a concrete request body, user
and agent body, for the wired agent and for `"code_reviewer"`. -/
theorem execute_agent_user_id_type_error_witness :
    execute_agent (fun m _ => m) ("infrastructure_monitor")
        ⟨some "hi", none⟩ ⟨"u1", "u@x", .user, none⟩ =
      .pythonError "TypeError: execute() got an unexpected keyword argument" ∧
    execute_agent (fun m _ => m) ("code_reviewer")
        ⟨some "hi", none⟩ ⟨"u1", "u@x", .user, none⟩ =
      .httpError 404 ("Agent " ++ "code_reviewer" ++ " not found") :=
  ⟨(execute_agent_user_id_type_error (fun m _ => m) ⟨some "hi", none⟩
      ⟨"u1", "u@x", .user, none⟩).1,
   (execute_agent_user_id_type_error (fun m _ => m) ⟨some "hi", none⟩
      ⟨"u1", "u@x", .user, none⟩).2 "code_reviewer" (by decide)⟩

/-- Reading back the digit character of a decimal digit. -/
lemma digit_val_digit_char (v : Nat) (h : v < 10) :
    digit_val (digit_char v) = some v := by
  interval_cases v <;> decide

/-- Reading back a two-digit zero-padded number. -/
lemma read2_digits (n : Nat) (h : n < 100) :
    read2 (digit_char (n / 10)) (digit_char (n % 10)) = some n := by
  have h1 := digit_val_digit_char (n / 10) (by omega)
  have h2 := digit_val_digit_char (n % 10) (by omega)
  simp [read2, h1, h2]
  omega

/-- Reading back a four-digit zero-padded number. -/
lemma read4_digits (n : Nat) (h : n < 10000) :
    read4 (digit_char (n / 1000)) (digit_char (n / 100 % 10))
      (digit_char (n / 10 % 10)) (digit_char (n % 10)) = some n := by
  have h1 := digit_val_digit_char (n / 1000) (by omega)
  have h2 := digit_val_digit_char (n / 100 % 10) (by omega)
  have h3 := digit_val_digit_char (n / 10 % 10) (by omega)
  have h4 := digit_val_digit_char (n % 10) (by omega)
  simp [read4, read2, h1, h2, h3, h4]
  omega

/-- Reading back a six-digit zero-padded number. -/
lemma read6_digits (n : Nat) (h : n < 1000000) :
    read6 (digit_char (n / 100000)) (digit_char (n / 10000 % 10))
      (digit_char (n / 1000 % 10)) (digit_char (n / 100 % 10))
      (digit_char (n / 10 % 10)) (digit_char (n % 10)) = some n := by
  have h1 := digit_val_digit_char (n / 100000) (by omega)
  have h2 := digit_val_digit_char (n / 10000 % 10) (by omega)
  have h3 := digit_val_digit_char (n / 1000 % 10) (by omega)
  have h4 := digit_val_digit_char (n / 100 % 10) (by omega)
  have h5 := digit_val_digit_char (n / 10 % 10) (by omega)
  have h6 := digit_val_digit_char (n % 10) (by omega)
  simp [read6, read2, h1, h2, h3, h4, h5, h6]
  omega

/-- Parsing inverts `isoformat` on every real datetime value. -/
lemma parse_iso_isoformat (d : PyDateTime) (h : d.valid) :
    parse_iso (isoformat d) = some d := by
  obtain ⟨hy, hmo1, hmo, hd1, hd, hh, hmi, hs, hus⟩ := h
  show parse_iso_chars _ = some d
  simp only [isoformat, digits4, digits2, List.cons_append, List.nil_append]
  rw [parse_iso_chars]
  simp only [read4_digits d.year (by omega), read2_digits d.month (by omega),
    read2_digits d.day (by omega), read2_digits d.hour (by omega),
    read2_digits d.minute (by omega), read2_digits d.second (by omega)]
  by_cases hus0 : d.microsecond = 0
  · simp only [hus0, if_pos rfl]
    simp [hus0.symm]
  · rw [if_neg hus0]
    simp only [digits6, read6_digits d.microsecond (by omega)]
    simp

/-- C8: serializing an Event to JSON and deserializing back yields an event
whose `session_id`, `type` and `payload` equal the original's, and whose
`event_id` and `timestamp` are the serialized values carried through (the
default factories never run since every field is present in the dump). -/
theorem event_json_round_trip (e : Event) (h : e.timestamp.valid) :
    from_json (to_json e) = some e := by
  simp [from_json, to_json, as_obj, as_str, json_lookup,
    parse_iso_isoformat e.timestamp h]

/-- Concrete event for the C8 witness. -/
def c8_event : Event :=
  { event_id := "ev-123", session_id := "sess-1",
    timestamp := ⟨2024, 5, 6, 7, 8, 9, 123456⟩, type := "metrics_update",
    payload := [("cpu", .num 5), ("memory_used", .num 12)] }

/-- Witness for C8: the round trip evaluated on a concrete event. -/
theorem event_json_round_trip_witness :
    c8_event.timestamp.valid ∧ from_json (to_json c8_event) = some c8_event :=
  ⟨by decide, event_json_round_trip c8_event (by decide)⟩

end ADK
